import Mathlib

/-!
Shallow embedding of `esdl/audio.py` (python-esdl): the SDL audio format
codec, the `AudioDevice` handle, the callback bridge and the
`Mixer`/`BasicMixer` classes, together with theorems settling the spec
claims about them.

Conventions of the embedding:
* machine integers are `Nat`/`Int`; the SDL format bitfield is a `Nat`
  manipulated with `&&&`/`|||` exactly as the source does;
* a Python function that can raise is modelled as returning
  `Except PyErr _`; a raised exception aborts the rest of the body;
* sample values are modelled as `Int` (the claims under study do not
  depend on the concrete machine representation of a sample, only on
  additive mixing, so `np.asarray`'s value coercion is the identity here);
* a frame is a `List Int` (one sample per channel), a buffer a
  `List (List Int)`.
-/

namespace Esdl

/-- Exceptions the modelled Python code can raise. -/
inductive PyErr
  /-- A failed `assert` statement. -/
  | assertionError
  /-- Python `AttributeError`, e.g. setting a fresh attribute on a `numpy.ndarray`. -/
  | attributeError
  /-- Python `ValueError`, e.g. `range(0, n, 0)` or a `reshape` size mismatch. -/
  | valueError
deriving DecidableEq, Repr

/-- The kind character of a scalar numpy dtype, restricted to the three
kinds `_get_format` accepts (`assert dt.str[1] in "uif"`): `u`nsigned
integer, signed `i`nteger, `f`loat. -/
inductive SampleKind
  | unsignedInt
  | signedInt
  | float
deriving DecidableEq, Repr

/-- A scalar numpy dtype (no sub-element structure, so `dt.fields is None`
holds by construction).  `bigEndian` is the host-resolved byte order:
numpy reports `dt.byteorder = "="` for native order and the source resolves
that against `sys.byteorder` before testing `byteorder == ">"`, so the model
stores the already-resolved flag.  numpy normalizes the byte order of
one-byte dtypes to "not applicable" (`"|"`), i.e. `np.dtype(">u1") ==
np.dtype("<u1")`; a value with `bytesize = 1` and `bigEndian = true` does
not correspond to any numpy dtype. -/
structure Dtype where
  bytesize : Nat
  kind : SampleKind
  bigEndian : Bool
deriving DecidableEq, Repr

/-- Model of `np.dtype(f"\x7bbyteorder\x7d\x7bkind\x7d\x7bbytesize\x7d")`: constructing a dtype
normalizes the byte order away on one-byte element types. -/
def npDtype (bytesize : Nat) (kind : SampleKind) (bigEndian : Bool) : Dtype :=
  { bytesize := bytesize, kind := kind,
    bigEndian := bigEndian && decide (1 < bytesize) }

/-- Source constant `_SDL_AUDIO_MASK_BITSIZE = 0xFF`. -/
def SDL_AUDIO_MASK_BITSIZE : Nat := 0xFF

/-- Source constant `_SDL_AUDIO_MASK_DATATYPE = 1 << 8` (the float flag). -/
def SDL_AUDIO_MASK_DATATYPE : Nat := 1 <<< 8

/-- Source constant `_SDL_AUDIO_MASK_ENDIAN = 1 << 12` (the big-endian flag). -/
def SDL_AUDIO_MASK_ENDIAN : Nat := 1 <<< 12

/-- Source constant `_SDL_AUDIO_MASK_SIGNED = 1 << 15` (the signed flag). -/
def SDL_AUDIO_MASK_SIGNED : Nat := 1 <<< 15

/-- Model of `_get_format(format)`: return a SDL_AudioFormat bitfield from a numpy
dtype.  `assert dt.fields is None` and `assert dt.str[1] in "uif"` hold by
construction of `Dtype`; the remaining assert `0 < bitsize <= 0xFF` is the
`assertionError` case.  `is_signed = dt.str[1] != "u"` — note a float dtype
also sets the signed flag. -/
def get_format (dt : Dtype) : Except PyErr Nat :=
  let bitsize := dt.bytesize * 8
  if 0 < bitsize ∧ bitsize ≤ SDL_AUDIO_MASK_BITSIZE then
    let is_signed := dt.kind ≠ SampleKind.unsignedInt
    let is_float := dt.kind = SampleKind.float
    .ok (bitsize
      ||| (if is_float then SDL_AUDIO_MASK_DATATYPE else 0)
      ||| (if dt.bigEndian then SDL_AUDIO_MASK_ENDIAN else 0)
      ||| (if is_signed then SDL_AUDIO_MASK_SIGNED else 0))
  else .error .assertionError

/-- Model of `_dtype_from_format(format)`: return a dtype from a SDL_AudioFormat.
`assert bitsize % 8 == 0` is the `assertionError` case; the kind is
resolved float-flag first, else signed-flag, else unsigned. -/
def dtype_from_format (format : Nat) : Except PyErr Dtype :=
  let bitsize := format &&& SDL_AUDIO_MASK_BITSIZE
  if bitsize % 8 = 0 then
    let bytesize := bitsize / 8
    let bigEndian := format &&& SDL_AUDIO_MASK_ENDIAN ≠ 0
    let kind :=
      if format &&& SDL_AUDIO_MASK_DATATYPE ≠ 0 then SampleKind.float
      else if format &&& SDL_AUDIO_MASK_SIGNED ≠ 0 then SampleKind.signedInt
      else SampleKind.unsignedInt
    .ok (npDtype bytesize kind bigEndian)
  else .error .assertionError

/-- A call into the native SDL library, recorded as an event so that the
side effects of the wrapper on the native layer are observable. -/
inductive NativeCall
  /-- Call `lib.SDL_CloseAudioDevice(device_id)`. -/
  | closeAudioDevice (device_id : Nat)
  /-- Call `lib.SDL_PauseAudioDevice(device_id, pause)`. -/
  | pauseAudioDevice (device_id : Nat) (pause : Bool)
deriving DecidableEq, Repr

/-- The fields of the `SDL_AudioSpec*` struct the wrapper reads back after
`SDL_OpenAudioDevice` (the `obtained` spec). -/
structure AudioSpec where
  freq : Nat
  format : Nat
  channels : Nat
  silence : Nat
  samples : Nat
  size : Nat
deriving DecidableEq, Repr

/-- Identity of the Python callable stored in the mutable
`AudioDevice.callback` attribute.  The source stores bound methods /
partials; the model stores a tag naming which one (the behaviour of each
is given by separate functions on the states they close over). -/
inductive CallbackTag
  /-- The partial `functools.partial(AudioDevice.__default_callback, silence=s)`. -/
  | defaultCallback (silence : Nat)
  /-- the bound method `Mixer.on_stream` -/
  | mixerOnStream
  /-- the bound method `BasicMixer.on_stream` -/
  | basicMixerOnStream
  /-- a caller-supplied callback -/
  | custom (id : Nat)
deriving DecidableEq, Repr

/-- The `AudioDevice` handle after a successful `__init__`: attributes as
assigned on lines 92-101 of `audio.py`. -/
structure AudioDevice where
  device_id : Nat
  frequency : Nat
  format : Dtype
  channels : Nat
  silence : Nat
  samples : Nat
  buffer_size : Nat
  callback : CallbackTag
deriving DecidableEq, Repr

/-- Model of `AudioDevice.__init__`.  The native layer is external: the result of
`lib.SDL_OpenAudioDevice` (a device id, 0 on failure) and the `obtained`
spec it fills in are parameters.  The body encodes the requested dtype
(`desired.format = _get_format(format)` — its assertion can raise), then
`assert self.device_id != 0`, then populates every attribute from the
`obtained` struct, decoding `obtained.format` with `_dtype_from_format`;
when no callback is supplied the default silence-filling callback is
installed with the obtained silence value.
The requested `frequency`, `channels` and `samples` are passed only to the
native call (the `desired` spec); they never reach the handle's
attributes. -/
def AudioDevice.init (frequency : Nat) (format : Dtype)
    (channels : Nat) (samples : Nat) (callback : Option CallbackTag)
    (device_id : Nat) (obtained : AudioSpec) : Except PyErr AudioDevice :=
  match get_format format with
  | .error e => .error e
  | .ok _desiredFormat =>
    -- desired = {freq: frequency, format: _desiredFormat, channels,
    -- samples, ...} is consumed by SDL_OpenAudioDevice, whose results
    -- are the `device_id` and `obtained` parameters.
    if device_id = 0 then .error .assertionError
    else
      match dtype_from_format obtained.format with
      | .error e => .error e
      | .ok fmt =>
        .ok { device_id := device_id
              frequency := obtained.freq
              format := fmt
              channels := obtained.channels
              silence := obtained.silence
              samples := obtained.samples
              buffer_size := obtained.size
              callback := callback.getD (.defaultCallback obtained.silence) }

/-- Model of `AudioDevice.pause`: `lib.SDL_PauseAudioDevice(self.device_id, True)`. -/
def AudioDevice.pause (d : AudioDevice) : AudioDevice × List NativeCall :=
  (d, [NativeCall.pauseAudioDevice d.device_id true])

/-- Model of `AudioDevice.unpause`: `lib.SDL_PauseAudioDevice(self.device_id, False)`. -/
def AudioDevice.unpause (d : AudioDevice) : AudioDevice × List NativeCall :=
  (d, [NativeCall.pauseAudioDevice d.device_id false])

/-- Model of `AudioDevice.close`: `if not self.device_id: return`, otherwise close
the native device and reset `device_id` to the 0 sentinel. -/
def AudioDevice.close (d : AudioDevice) : AudioDevice × List NativeCall :=
  if d.device_id = 0 then (d, [])
  else ({ d with device_id := 0 }, [NativeCall.closeAudioDevice d.device_id])

/-- Model of `AudioDevice.__default_callback`: `stream[...] = silence`. -/
def AudioDevice.default_callback (stream : List (List Int)) (silence : Nat) :
    List (List Int) :=
  stream.map (fun fr => fr.map (fun _ => (silence : Int)))

/-- What `self.device` refers to.  After a correct construction it is an
`AudioDevice`; the buggy `BasicMixer.on_stream` reassigns it to the stream
ndarray (see `BasicMixer.on_stream`). -/
inductive DeviceRef
  | dev (d : AudioDevice)
  | ndarray (a : List (List Int))
deriving DecidableEq, Repr

/-- The `Mixer` class state: holds the device it was constructed on. -/
structure Mixer where
  device : AudioDevice
deriving DecidableEq, Repr

/-- Model of `Mixer.__init__(device)`: store the device, install the (dynamically
dispatched) bound method `self.on_stream` as `device.callback`, and
immediately `self.device.unpause()`.  For a plain `Mixer`, `self.on_stream`
is `Mixer.on_stream`. -/
def Mixer.init (device : AudioDevice) : Mixer × List NativeCall :=
  let device := { device with callback := CallbackTag.mixerOnStream }
  let (device, calls) := device.unpause
  ({ device := device }, calls)

/-- Model of `Mixer.on_stream(stream)`: `stream[...] = self.device.silence`. -/
def Mixer.on_stream (m : Mixer) (stream : List (List Int)) : List (List Int) :=
  stream.map (fun fr => fr.map (fun _ => (m.device.silence : Int)))

/-- The `BasicMixer` class state: the device reference inherited from `Mixer` (as a
`DeviceRef`, since `BasicMixer.on_stream` can corrupt it) plus the
in-flight collection `play_buffers`.  Each entry is stored exactly as the
source stores it: the chunk list of one sound, *reversed*, so that the
Python `list.pop()` (pop from the end) yields the oldest chunk. -/
structure BasicMixer where
  device : DeviceRef
  play_buffers : List (List (List (List Int)))
deriving DecidableEq, Repr

/-- Model of `BasicMixer.__init__(device)`: `super().__init__(device)` — where
`self.on_stream` dynamically resolves to `BasicMixer.on_stream` — then
`self.play_buffers = []`. -/
def BasicMixer.init (device : AudioDevice) : BasicMixer × List NativeCall :=
  let device := { device with callback := CallbackTag.basicMixerOnStream }
  let (device, calls) := device.unpause
  ({ device := DeviceRef.dev device, play_buffers := [] }, calls)

/-- Consecutive slices of `s` rows each, last slice possibly shorter: the
value of `np.split(array, range(0, len(array), s)[1:])` for `s ≥ 1`.
`range(0, len, s)[1:] = [s, 2s, ...]` has `ceil(len/s) - 1` entries (for a
non-empty array), so `np.split` returns `ceil(len/s)` pieces and piece `i`
is the slice `array[i*s : (i+1)*s]` (the last one clipped to the end). -/
def npSplitEvery (s : Nat) (xs : List α) : List (List α) :=
  (List.range ((xs.length + s - 1) / s)).map (fun i => (xs.drop (i * s)).take s)

/-- A 1-D sequence of samples or a 2-D (frames × channels) array: the two
shapes `BasicMixer.play` accepts. -/
inductive ArrayLike
  | oneD (xs : List Int)
  | twoD (xs : List (List Int))
deriving DecidableEq, Repr

/-- Python `array.size`: total number of elements. -/
def ArrayLike.size : ArrayLike → Nat
  | .oneD xs => xs.length
  | .twoD xs => (xs.map List.length).sum

/-- The frame rows of the array after the `newaxis` lift: a 1-D sound
becomes one column (`array[:, np.newaxis]`), a 2-D sound is kept. -/
def ArrayLike.rows : ArrayLike → List (List Int)
  | .oneD xs => xs.map (fun x => [x])
  | .twoD xs => xs

/-- Model of `BasicMixer.play(sound)`.
`array = np.asarray(sound, dtype=self.device.format)` reads
`self.device.format` (an `AttributeError` if `self.device` is the ndarray
left behind by the buggy `on_stream`); `assert array.size` rejects an
empty sound; a 1-D sound is lifted to one column (`array[:, np.newaxis]`);
`range(0, len(array), self.device.samples)` raises `ValueError` when the
step `samples` is 0; the chunk list is reversed (`[::-1]`) and appended to
`self.play_buffers`.  Sample values are already `Int`, so the dtype
coercion in `np.asarray` is the identity here. -/
def BasicMixer.play (m : BasicMixer) (sound : ArrayLike) :
    Except PyErr BasicMixer :=
  match m.device with
  | .ndarray _ => .error .attributeError
  | .dev d =>
    if sound.size = 0 then .error .assertionError
    else if d.samples = 0 then .error .valueError
    else .ok { m with
      play_buffers :=
        m.play_buffers ++ [(npSplitEvery d.samples sound.rows).reverse] }

/-- Model of `BasicMixer.on_stream(stream)`, as written in the source.  Line 147
reads `super().__init__(stream)`: it invokes `Mixer.__init__` with the
stream ndarray bound to the `device` parameter.  That body first executes
`self.device = device`, overwriting the mixer's device with the ndarray,
and then `device.callback = self.on_stream`, which raises
`AttributeError` because a `numpy.ndarray` accepts no new attributes.
The exception aborts the method: the chunk-popping loop on lines 148-152
and the exhausted-buffer cleanup never execute.  The result is the state
after the partial mutation, the untouched stream and the raised error. -/
def BasicMixer.on_stream (m : BasicMixer) (stream : List (List Int)) :
    BasicMixer × List (List Int) × Option PyErr :=
  ({ m with device := DeviceRef.ndarray stream }, stream,
   some PyErr.attributeError)

/-- Model of `_sdl_audio_callback(userdata, stream, length)`, the Python body of
the extern callback.  `ffi.from_handle(userdata)()` resolves the weak
back-reference: its result (`some device` while the handle is alive,
`none` once it has been destroyed) is the `deref` parameter.  `assert
device is not None` raises on a dead handle before anything is touched.
Otherwise the raw buffer is reinterpreted as frames
(`np.frombuffer(...).reshape(-1, device.channels)` — a `ValueError` if the
sample count is not divisible by the channel count) and `device.callback`
is invoked on the frames; `callbackImpl` is the behaviour of the callable
currently stored in `device.callback`, mutating the frames in place. -/
def sdl_audio_callback (deref : Option AudioDevice)
    (callbackImpl : List (List Int) → List (List Int))
    (stream : List Int) : Except PyErr (List Int) :=
  match deref with
  | none => .error .assertionError
  | some device =>
    if device.channels = 0 ∨ stream.length % device.channels ≠ 0 then
      .error .valueError
    else
      .ok (callbackImpl (npSplitEvery device.channels stream)).flatten

/-- The `@ffi.def_extern()` boundary around `_sdl_audio_callback`: cffi
catches any exception escaping an extern "Python" function, prints the
traceback and returns normally to C; the byte buffer is left exactly as
it was.  The process does not crash. -/
def sdl_audio_callback_extern (deref : Option AudioDevice)
    (callbackImpl : List (List Int) → List (List Int))
    (stream : List Int) : List Int :=
  match sdl_audio_callback deref callbackImpl stream with
  | .ok s => s
  | .error _ => stream

/-! Concrete fixtures used by the evaluation theorems below: the device of
the spec's mixing test (`frame_batch_size`/`samples` 4, `silence` 0, one
channel) and a `BasicMixer` freshly constructed on it. -/

/-- A device with `samples = 4`, `silence = 0`, one channel. -/
def testDevice : AudioDevice :=
  { device_id := 7, frequency := 44100, format := npDtype 4 .float false,
    channels := 1, silence := 0, samples := 4, buffer_size := 16,
    callback := .defaultCallback 0 }

/-- A `BasicMixer` freshly constructed on `testDevice`. -/
def testMixer : BasicMixer := (BasicMixer.init testDevice).1

/-- The state of `testMixer` after `play([1,1,1,1,1,1,1,1])`: one in-flight sound, its
two 4-frame chunks stored in reversed order (so `pop()` yields the first
chunk first). -/
def mixerAfterPlay8 : BasicMixer :=
  { testMixer with
    play_buffers := [[[[1], [1], [1], [1]], [[1], [1], [1], [1]]]] }

/-- The state of `testMixer` after `play([10,20,30,40,50])`: chunks `[10..40]` and
`[50]`, stored reversed. -/
def mixerAfterPlay5 : BasicMixer :=
  { testMixer with
    play_buffers := [[[[50]], [[10], [20], [30], [40]]]] }

/-- The state of `testMixer` after `play([2,3])`: a single 2-frame chunk. -/
def mixerAfterPlay2 : BasicMixer :=
  { testMixer with play_buffers := [[[[2], [3]]]] }

/-- C1: the claim says that after `play([1]*8)` on a `frame_batch_size=4`,
`silence=0` device, an `on_stream` call against a zero buffer leaves the
buffer `[1,1,1,1]` and pops a chunk.  The code instead raises: line 147 of
`audio.py` reads `super().__init__(stream)` (not `super().on_stream(stream)`),
which sets `self.device` to the stream ndarray and then raises
`AttributeError` assigning `stream.callback`.  This theorem evaluates the
code at the claim's own input: `play` succeeds, but `on_stream` raises
`AttributeError`, leaves the buffer all zeros (not `[1,1,1,1]`), consumes
no chunk, and corrupts `self.device`. -/
theorem basicMixer_on_stream_crashes_instead_of_mixing :
    testMixer.play (ArrayLike.oneD [1, 1, 1, 1, 1, 1, 1, 1]) =
      Except.ok mixerAfterPlay8 ∧
    mixerAfterPlay8.on_stream [[0], [0], [0], [0]] =
      ({ mixerAfterPlay8 with device := DeviceRef.ndarray [[0], [0], [0], [0]] },
       [[0], [0], [0], [0]], some PyErr.attributeError) :=
  ⟨rfl, rfl⟩

/-- C2: a callback-bridge invocation whose token resolves to a destroyed
handle (`deref = none`) performs no mutation of the buffer and, at the
cffi `def_extern` boundary, returns without crashing: inside the bridge
the `assert device is not None` raises before anything is dereferenced,
and the boundary contains the exception, leaving the buffer untouched. -/
theorem callback_bridge_dead_handle_safe
    (callbackImpl : List (List Int) → List (List Int)) (stream : List Int) :
    sdl_audio_callback_extern none callbackImpl stream = stream ∧
    sdl_audio_callback none callbackImpl stream =
      Except.error PyErr.assertionError :=
  ⟨rfl, rfl⟩

/-- C3: for every valid sample-format descriptor — element width a positive
multiple of 8 and at most 255 (i.e. `bytesize` between 1 and 31), any of
the three kinds, any byte order representable by a numpy dtype (one-byte
dtypes have no byte order: `np.dtype` normalizes it away, so
`bytesize = 1` forces `bigEndian = false`) — decoding the bitfield
produced by `_get_format` yields the descriptor back. -/
theorem format_roundtrip (dt : Dtype) (h1 : 0 < dt.bytesize)
    (h2 : dt.bytesize ≤ 31) (h3 : dt.bytesize = 1 → dt.bigEndian = false) :
    (get_format dt).bind dtype_from_format = Except.ok dt := by
  obtain ⟨b, k, e⟩ := dt
  dsimp only at h1 h2 h3
  interval_cases b <;> cases k <;> cases e <;>
    first
      | rfl
      | exact absurd (h3 rfl) (by decide)

/-- Witness for C3 at the float32 little-endian descriptor. -/
theorem format_roundtrip_witness :
    0 < (4 : Nat) ∧ (4 : Nat) ≤ 31 ∧
    (get_format ⟨4, SampleKind.float, false⟩).bind dtype_from_format =
      Except.ok ⟨4, SampleKind.float, false⟩ :=
  ⟨by decide, by decide,
   format_roundtrip ⟨4, SampleKind.float, false⟩ (by decide) (by decide)
     (by decide)⟩

/-- C4: a bitfield with both the float flag (bit 8) and the signed flag
(bit 15) set decodes to kind `float`, never `signedInt`: the decode
resolves the kind float-flag first. -/
theorem decode_float_flag_priority (format : Nat) (d : Dtype)
    (hf : format &&& SDL_AUDIO_MASK_DATATYPE ≠ 0)
    (hs : format &&& SDL_AUDIO_MASK_SIGNED ≠ 0)
    (h : dtype_from_format format = Except.ok d) :
    d.kind = SampleKind.float := by
  by_cases hb : (format &&& SDL_AUDIO_MASK_BITSIZE) % 8 = 0
  · simp only [dtype_from_format, hb, if_true, Except.ok.injEq] at h
    rw [← h, if_pos hf]
    rfl
  · simp [dtype_from_format, hb] at h

/-- Witness for C4 at `AUDIO_F32LSB`-with-signed-bit, `0x8120`:
bitsize 32, float flag and signed flag both set. -/
theorem decode_float_flag_priority_witness :
    (0x8120 : Nat) &&& SDL_AUDIO_MASK_DATATYPE ≠ 0 ∧
    (0x8120 : Nat) &&& SDL_AUDIO_MASK_SIGNED ≠ 0 ∧
    dtype_from_format 0x8120 = Except.ok (npDtype 4 SampleKind.float false) ∧
    (npDtype 4 SampleKind.float false).kind = SampleKind.float :=
  ⟨by decide, by decide, rfl,
   decode_float_flag_priority 0x8120 (npDtype 4 SampleKind.float false)
     (by decide) (by decide) rfl⟩

/-- C5: the claim says `play` splits a sound into `frame_batch_size`-frame
chunks consumed oldest-first by successive `on_stream` calls until the
sound is exhausted and removed.  The splitting half is what the code does
(`play [10,20,30,40,50]` on a `samples = 4` device stores the chunk list
`[[10,20,30,40], [50]]`, reversed so Python's `pop()` takes the oldest
chunk), but no chunk is ever consumed: `on_stream` raises
`AttributeError` at `super().__init__(stream)` before its popping loop,
leaving `play_buffers` untouched, so the chunk sequence is never consumed
nor the sound ever removed. -/
theorem play_splits_but_on_stream_never_consumes :
    testMixer.play (ArrayLike.oneD [10, 20, 30, 40, 50]) =
      Except.ok mixerAfterPlay5 ∧
    mixerAfterPlay5.play_buffers =
      [[[[10], [20], [30], [40]], [[50]]].reverse] ∧
    (mixerAfterPlay5.on_stream [[0], [0], [0], [0]]).1.play_buffers =
      mixerAfterPlay5.play_buffers ∧
    (mixerAfterPlay5.on_stream [[0], [0], [0], [0]]).2.2 =
      some PyErr.attributeError :=
  ⟨rfl, rfl, rfl, rfl⟩

/-- C6: `play` with a zero-length sound fails the `assert array.size`
check, raising before the `play_buffers.append` — as `play` only returns
a new mixer state on success, the in-flight collection is unchanged. -/
theorem play_empty_rejected (m : BasicMixer) (d : AudioDevice)
    (hdev : m.device = DeviceRef.dev d) :
    m.play (ArrayLike.oneD []) = Except.error PyErr.assertionError := by
  unfold BasicMixer.play
  rw [hdev]
  rfl

/-- Witness for C6: the fresh `testMixer` rejects `play([])`. -/
theorem play_empty_rejected_witness :
    testMixer.device =
      DeviceRef.dev { testDevice with callback := .basicMixerOnStream } ∧
    testMixer.play (ArrayLike.oneD []) = Except.error PyErr.assertionError :=
  ⟨rfl, play_empty_rejected testMixer
    { testDevice with callback := .basicMixerOnStream } rfl⟩

/-- C7: on an open handle (`device_id ≠ 0`) the first `close` emits the
native `SDL_CloseAudioDevice` call and resets `device_id` to the 0
sentinel; the second `close` is a no-op (no native call, state unchanged)
that leaves `device_id = 0`. -/
theorem close_idempotent (d : AudioDevice) (h : d.device_id ≠ 0) :
    d.close.1.device_id = 0 ∧
    d.close.2 = [NativeCall.closeAudioDevice d.device_id] ∧
    d.close.1.close = (d.close.1, []) := by
  simp [AudioDevice.close, h]

/-- Witness for C7 at `testDevice` (`device_id = 7`). -/
theorem close_idempotent_witness :
    testDevice.device_id ≠ 0 ∧
    (testDevice.close.1.device_id = 0 ∧
     testDevice.close.2 = [NativeCall.closeAudioDevice testDevice.device_id] ∧
     testDevice.close.1.close = (testDevice.close.1, [])) :=
  ⟨by decide, close_idempotent testDevice (by decide)⟩

/-- C8: when the open succeeds and the native layer obtained values
different from the requested ones, every reported attribute of the handle
(frequency, format, channels, silence, samples/frame_batch_size,
buffer_size) comes from the `obtained` spec, never from the request. -/
theorem open_reports_obtained_values (frequency : Nat) (format : Dtype)
    (channels samples : Nat) (callback : Option CallbackTag)
    (device_id : Nat) (obtained : AudioSpec) (dev : AudioDevice)
    (hfreq : obtained.freq ≠ frequency) (hch : obtained.channels ≠ channels)
    (hsmp : obtained.samples ≠ samples)
    (h : AudioDevice.init frequency format channels samples callback
        device_id obtained = Except.ok dev) :
    dev.frequency = obtained.freq ∧
    dtype_from_format obtained.format = Except.ok dev.format ∧
    dev.channels = obtained.channels ∧
    dev.silence = obtained.silence ∧
    dev.samples = obtained.samples ∧
    dev.buffer_size = obtained.size := by
  unfold AudioDevice.init at h
  split at h
  · exact Except.noConfusion h
  · split at h
    · exact Except.noConfusion h
    · split at h
      · exact Except.noConfusion h
      · cases h
        refine ⟨rfl, ?_, rfl, rfl, rfl, rfl⟩
        assumption

/-- Witness for C8: request 44100 Hz, 2 channels, 4096 samples; the native
layer obtains 48000 Hz, 1 channel, 1024 samples, float32 format, and the
handle reports the obtained values. -/
theorem open_reports_obtained_values_witness :
    (48000 : Nat) ≠ 44100 ∧ (1 : Nat) ≠ 2 ∧ (1024 : Nat) ≠ 4096 ∧
    ((⟨48000, 0x8120, 1, 0, 1024, 4096⟩ : AudioSpec).freq = 48000 ∧
     dtype_from_format (⟨48000, 0x8120, 1, 0, 1024, 4096⟩ : AudioSpec).format =
       Except.ok (npDtype 4 SampleKind.float false) ∧
     (⟨48000, 0x8120, 1, 0, 1024, 4096⟩ : AudioSpec).channels = 1 ∧
     (⟨48000, 0x8120, 1, 0, 1024, 4096⟩ : AudioSpec).silence = 0 ∧
     (⟨48000, 0x8120, 1, 0, 1024, 4096⟩ : AudioSpec).samples = 1024 ∧
     (⟨48000, 0x8120, 1, 0, 1024, 4096⟩ : AudioSpec).size = 4096) := by
  refine ⟨by decide, by decide, by decide, ?_⟩
  have hdev := open_reports_obtained_values 44100 (npDtype 4 .float false)
    2 4096 none 5 ⟨48000, 0x8120, 1, 0, 1024, 4096⟩
    { device_id := 5, frequency := 48000,
      format := npDtype 4 SampleKind.float false, channels := 1,
      silence := 0, samples := 1024, buffer_size := 4096,
      callback := .defaultCallback 0 }
    (by decide) (by decide) (by decide) rfl
  exact hdev

/-- C9: constructing a `Mixer` on a device installs the mixer's
(dynamically dispatched) `on_stream` as the device's callback and
immediately unpauses the device — the native
`SDL_PauseAudioDevice(id, False)` call is emitted by the constructor
itself, with no explicit unpause by the caller; likewise for
`BasicMixer` (whose stored callback is `BasicMixer.on_stream`). -/
theorem mixer_init_installs_on_stream_and_unpauses (d : AudioDevice) :
    (Mixer.init d).1.device.callback = CallbackTag.mixerOnStream ∧
    (Mixer.init d).2 = [NativeCall.pauseAudioDevice d.device_id false] ∧
    (BasicMixer.init d).1.device =
      DeviceRef.dev { d with callback := CallbackTag.basicMixerOnStream } ∧
    (BasicMixer.init d).2 = [NativeCall.pauseAudioDevice d.device_id false] :=
  ⟨rfl, rfl, rfl, rfl⟩

/-- C10: the claim says `on_stream` pops one chunk of every in-flight
sound and removes exhausted sounds before returning.  In the code the
popping loop and the cleanup are unreachable: `on_stream` raises
`AttributeError` at `super().__init__(stream)` first.  Evaluated on a
mixer holding one single-chunk sound (which the claim says would be
consumed and removed by one `on_stream` call), `on_stream` raises and
leaves the sound, with its chunk unpopped, in `play_buffers`. -/
theorem on_stream_raises_before_pop_and_cleanup :
    testMixer.play (ArrayLike.oneD [2, 3]) = Except.ok mixerAfterPlay2 ∧
    mixerAfterPlay2.on_stream [[0], [0], [0], [0]] =
      ({ mixerAfterPlay2 with device := DeviceRef.ndarray [[0], [0], [0], [0]] },
       [[0], [0], [0], [0]], some PyErr.attributeError) :=
  ⟨rfl, rfl⟩

end Esdl
